import Mathlib

/-!
Shallow embedding of the NesCaster emulation core behind the C interface
`src/Apple TV/NesCaster/Core/MesenBridge.h`.  The header fixes the types,
the enums and the operation signatures; the behavior of each operation is
modelled from the specification (the implementation translation unit is
not part of the tree).  All state is passed explicitly: each C function
`void f(args)` becomes `f : args → CoreState → CoreState`, and functions
returning a value become `args → CoreState → result × CoreState`.
-/

namespace NesCaster

/-- Emulator lifecycle state, mirroring the `MesenState` enum of
MesenBridge.h (`Idle`, `Running`, `Paused`, `Error`). -/
inductive MesenState where
  | Idle
  | Running
  | Paused
  | Error
deriving DecidableEq, Repr

/-- ROM load result, mirroring the `MesenLoadResult` enum of MesenBridge.h. -/
inductive MesenLoadResult where
  | Success
  | FileNotFound
  | InvalidROM
  | UnsupportedMapper
  | Error
deriving DecidableEq, Repr

/-- `NESButton_A = 1 << 0` from the `NESButton` enum. -/
def NESButton_A : Nat := 1

/-- `NESButton_B = 1 << 1` from the `NESButton` enum. -/
def NESButton_B : Nat := 2

/-- `NESButton_Select = 1 << 2` from the `NESButton` enum. -/
def NESButton_Select : Nat := 4

/-- `NESButton_Start = 1 << 3` from the `NESButton` enum. -/
def NESButton_Start : Nat := 8

/-- `NESButton_Up = 1 << 4` from the `NESButton` enum. -/
def NESButton_Up : Nat := 16

/-- `NESButton_Down = 1 << 5` from the `NESButton` enum. -/
def NESButton_Down : Nat := 32

/-- `NESButton_Left = 1 << 6` from the `NESButton` enum. -/
def NESButton_Left : Nat := 64

/-- `NESButton_Right = 1 << 7` from the `NESButton` enum. -/
def NESButton_Right : Nat := 128

/-- The eight single-bit button flags of the `NESButton` enum. -/
def nesButtonMasks : List Nat :=
  [NESButton_A, NESButton_B, NESButton_Select, NESButton_Start,
   NESButton_Up, NESButton_Down, NESButton_Left, NESButton_Right]

/-- `NES_WIDTH` from MesenBridge.h. -/
def NES_WIDTH : Nat := 256

/-- `NES_HEIGHT` from MesenBridge.h. -/
def NES_HEIGHT : Nat := 240

/-- `NES_FRAME_SIZE = NES_WIDTH * NES_HEIGHT * 4` (RGBA) from MesenBridge.h. -/
def NES_FRAME_SIZE : Nat := NES_WIDTH * NES_HEIGHT * 4

/-- Modelled from the spec: CPU register file of the Processing Unit
(program counter, accumulator, index registers, stack pointer, flags). -/
structure CPUState where
  pc : Nat
  a : Nat
  x : Nat
  y : Nat
  sp : Nat
  p : Nat
deriving DecidableEq, Repr

/-- Modelled from the spec: Picture Unit counters (scanline/dot position on
the fixed grid) plus the vertical-blank flag. -/
structure PPUState where
  scanline : Nat
  dot : Nat
  vblank : Bool
deriving DecidableEq, Repr

/-- Modelled from the spec: one Audio Unit channel generator with its own
period/duty-phase/envelope/length counters. -/
structure ApuChannel where
  period : Nat
  phase : Nat
  envelope : Nat
  lengthCtr : Nat
deriving DecidableEq, Repr

/-- Modelled from the spec: the five independent Audio Unit channel
generators (two pulse, triangle, noise, delta-modulation). -/
structure APUState where
  sq1 : ApuChannel
  sq2 : ApuChannel
  tri : ApuChannel
  noi : ApuChannel
  dmc : ApuChannel
deriving DecidableEq, Repr

/-- Modelled from the spec: the complete serializable MachineState — CPU
registers, work RAM, Picture Unit counters, Audio Unit channel state,
Mapper Bank register, and cartridge battery RAM.  The spec's invariant is
that this record fully determines all future behavior given input. -/
structure MachineState where
  cpu : CPUState
  wram : List Nat
  ppu : PPUState
  apu : APUState
  mapperReg : Nat
  batteryRam : List Nat
deriving DecidableEq, Repr

/-- Modelled from the spec: immutable Cartridge Image — ROM data plus the
derived mapper id and the declared PRG/CHR data. -/
structure Cartridge where
  mapperId : Nat
  prg : List Nat
  chr : List Nat
deriving DecidableEq, Repr

/-- Modelled from the spec: per-channel audio enable flags set by
`mesen_set_audio_channels`; configuration, not part of MachineState. -/
structure AudioCfg where
  square1 : Bool
  square2 : Bool
  triangle : Bool
  noise : Bool
  dmc : Bool
deriving DecidableEq, Repr

/-- Modelled from the spec: an in-core snapshot (Cartridge compatibility
tag plus a copy of MachineState) as stored in a save slot or in the
quick-save scratch region. -/
structure Snapshot where
  tag : List Nat
  machine : MachineState
deriving DecidableEq, Repr

/-- Modelled from the spec: the whole core behind the control surface —
lifecycle state, loaded cartridge, MachineState, latched controller masks,
the frame and audio output buffers, slot storage, the quick-save scratch
snapshot, overscan and audio configuration, and the frame counter. -/
structure CoreState where
  state : MesenState
  rom : Option Cartridge
  machine : MachineState
  pad0 : Nat
  pad1 : Nat
  frameBuffer : List Nat
  audioBuffer : List Int
  slots : Nat → Option Snapshot
  quickSlot : Option Snapshot
  overscanTop : Nat
  overscanBottom : Nat
  overscanLeft : Nat
  overscanRight : Nat
  audioCfg : AudioCfg
  frameCount : Nat

/-- Modelled from the spec: CPU cycles in one video frame; the System
Clock drives the units in this fixed ratio per `mesen_run_frame`. -/
def cyclesPerFrame : Nat := 29781

/-- Modelled from the spec: interleaved stereo sample pairs produced per
frame at the fixed output rate (44100 Hz / 60 fps). -/
def samplesPerFrame : Nat := 735

/-- Modelled from the spec: mapper-translated PRG ROM fetch on the Memory
Bus (bank wrap-around by ROM size). -/
def prgByte (cart : Cartridge) (addr : Nat) : Nat :=
  cart.prg.getD (addr % cart.prg.length) 0

/-- Modelled from the spec: advance one Audio Unit channel generator by a
number of CPU cycles; the period/phase/envelope/length counters advance
regardless of any enable flag (the flags only gate the mix). -/
def stepChannel (cycles : Nat) (ch : ApuChannel) : ApuChannel :=
  { ch with
    phase := (ch.phase + cycles) % (ch.period + 1),
    envelope := (ch.envelope + cycles / 7457) % 16,
    lengthCtr := ch.lengthCtr - cycles / 7457 }

/-- Modelled from the spec: advance all five channel generators
independently by the given cycle count. -/
def stepApu (cycles : Nat) (apu : APUState) : APUState :=
  { sq1 := stepChannel cycles apu.sq1
    sq2 := stepChannel cycles apu.sq2
    tri := stepChannel cycles apu.tri
    noi := stepChannel cycles apu.noi
    dmc := stepChannel cycles apu.dmc }

/-- Modelled from the spec: advance the Picture Unit across its fixed
341-dot by 262-scanline grid for one frame's worth of dots (three dots per
CPU cycle), toggling the frame parity carried in `vblank`. -/
def stepPpu (ppu : PPUState) : PPUState :=
  { scanline := (ppu.scanline + (ppu.dot + 3 * cyclesPerFrame) / 341) % 262
    dot := (ppu.dot + 3 * cyclesPerFrame) % 341
    vblank := !ppu.vblank }

/-- Modelled from the spec: the Processing Unit's net register update over
one frame, driven by the Memory Bus (PRG fetch, work RAM) and the
controller masks latched at the start of the frame. -/
def stepCpu (cart : Cartridge) (inp0 inp1 : Nat) (m : MachineState) : CPUState :=
  { pc := (m.cpu.pc + prgByte cart m.cpu.pc + 1) % 32768
    a := (m.cpu.a + prgByte cart m.cpu.pc + inp0) % 256
    x := (m.cpu.x + m.wram.getD (m.cpu.pc % 2048) 0) % 256
    y := (m.cpu.y + inp1) % 256
    sp := (m.cpu.sp + 255) % 256
    p := (m.cpu.p ^^^ prgByte cart m.cpu.pc) % 256 }

/-- Modelled from the spec: one `runFrame` step of the whole MachineState:
CPU, work RAM, Picture Unit, Audio Unit, Mapper Bank register and battery
RAM all advance deterministically from the previous state, the cartridge,
and the latched input masks. -/
def stepFrame (cart : Cartridge) (inp0 inp1 : Nat) (m : MachineState) : MachineState :=
  { cpu := stepCpu cart inp0 inp1 m
    wram := m.wram.set (m.cpu.pc % 2048) ((m.cpu.a + inp0) % 256)
    ppu := stepPpu m.ppu
    apu := stepApu cyclesPerFrame m.apu
    mapperReg := (m.mapperReg ^^^ prgByte cart m.cpu.pc / 16) % 16
    batteryRam := m.batteryRam.set (m.cpu.x % 256) (m.cpu.y % 256)
    }

/-- Modelled from the spec: the Picture Unit's 256 by 240 RGBA frame
rendering — a pure function of the cartridge and MachineState, written in
place over the whole buffer every frame. -/
def renderFrame (cart : Cartridge) (m : MachineState) : List Nat :=
  (List.range (NES_WIDTH * NES_HEIGHT)).flatMap (fun i =>
    let v := (i + m.cpu.pc + 7 * m.ppu.scanline + m.mapperReg +
              prgByte cart (i % 4096) + m.wram.getD (i % 2048) 0) % 256
    [v, (v + 85) % 256, (v + 170) % 256, 255])

/-- Modelled from the spec: a channel's contribution to one mixed sample,
a pure function of its counters (square-style duty from phase/period,
envelope volume, silence when the length counter has run out). -/
def channelOut (ch : ApuChannel) (t : Nat) : Int :=
  if ch.lengthCtr = 0 then 0
  else if 2 * ((ch.phase + t) % (ch.period + 1)) < ch.period + 1 then
    Int.ofNat (64 * ch.envelope)
  else
    -(Int.ofNat (64 * ch.envelope))

/-- Modelled from the spec: mix one frame of interleaved stereo samples;
each enable flag gates its channel's contribution to the mix and nothing
else. -/
def mixFrame (cfg : AudioCfg) (apu : APUState) : List Int :=
  (List.range samplesPerFrame).flatMap (fun t =>
    let s := (if cfg.square1 then channelOut apu.sq1 (40 * t) else 0) +
             (if cfg.square2 then channelOut apu.sq2 (40 * t) else 0) +
             (if cfg.triangle then channelOut apu.tri (40 * t) else 0) +
             (if cfg.noise then channelOut apu.noi (40 * t) else 0) +
             (if cfg.dmc then channelOut apu.dmc (40 * t) else 0)
    [s, s])

/-- Modelled from the spec: the all-black frame buffer a freshly powered
core presents before the first frame. -/
def blankFrame : List Nat := List.replicate NES_FRAME_SIZE 0

/-- Modelled from the spec: power-on MachineState for a freshly loaded
cartridge — registers at their reset values, volatile RAM cleared. -/
def initMachine (_cart : Cartridge) : MachineState :=
  { cpu := { pc := 0, a := 0, x := 0, y := 0, sp := 253, p := 36 }
    wram := List.replicate 2048 0
    ppu := { scanline := 0, dot := 0, vblank := false }
    apu :=
      { sq1 := { period := 0, phase := 0, envelope := 0, lengthCtr := 0 }
        sq2 := { period := 0, phase := 0, envelope := 0, lengthCtr := 0 }
        tri := { period := 0, phase := 0, envelope := 0, lengthCtr := 0 }
        noi := { period := 0, phase := 0, envelope := 0, lengthCtr := 0 }
        dmc := { period := 0, phase := 0, envelope := 0, lengthCtr := 0 } }
    mapperReg := 0
    batteryRam := List.replicate 256 0 }

/-- Modelled from the spec: the machine record held while no ROM is
loaded (`Idle` with everything cleared). -/
def emptyMachine : MachineState :=
  initMachine { mapperId := 0, prg := [], chr := [] }

/-- Modelled from the spec: the Cartridge compatibility tag embedded in
every SnapshotBlob so a load can validate ROM compatibility. -/
def cartTag (cart : Cartridge) : List Nat :=
  [cart.mapperId, cart.prg.length, cart.chr.length]

/-- The iNES magic bytes `N`, `E`, `S`, `0x1A` that a valid .nes header
starts with. -/
def nesMagic : List Nat := [78, 69, 83, 26]

/-- Modelled from the spec: the finite, enumerable set of cartridge mapper
ids the core implements; any other id is rejected at load time. -/
def supportedMappers : List Nat := [0, 1, 2, 3, 4, 7]

/-- Modelled from the spec: header well-formedness of a .nes image — at
least the 16 header bytes, starting with the iNES magic. -/
def headerValid (d : List Nat) : Bool :=
  decide (16 ≤ d.length) && decide (d.take 4 = nesMagic)

/-- Modelled from the spec: the mapper id a .nes header declares (low
nibble from byte 6, high nibble from byte 7). -/
def mapperOf (d : List Nat) : Nat :=
  d.getD 6 0 / 16 + 16 * (d.getD 7 0 / 16)

/-- Modelled from the spec: build the immutable Cartridge Image from a
validated .nes image — mapper id and the declared PRG/CHR banks. -/
def parseCartridge (d : List Nat) : Cartridge :=
  { mapperId := mapperOf d
    prg := (d.drop 16).take (16384 * d.getD 4 0)
    chr := (d.drop (16 + 16384 * d.getD 4 0)).take (8192 * d.getD 5 0) }

/-- Modelled from the spec: the core as `mesen_init` leaves it — `Idle`,
no ROM, cleared machine and buffers, empty slots, all channels enabled. -/
def initCore : CoreState :=
  { state := MesenState.Idle
    rom := none
    machine := emptyMachine
    pad0 := 0
    pad1 := 0
    frameBuffer := blankFrame
    audioBuffer := []
    slots := fun _ => none
    quickSlot := none
    overscanTop := 0
    overscanBottom := 0
    overscanLeft := 0
    overscanRight := 0
    audioCfg := { square1 := true, square2 := true, triangle := true,
                  noise := true, dmc := true }
    frameCount := 0 }

/-- Modelled from the spec: `mesen_init` — allocate and enter `Idle`;
returns true on success. -/
def mesen_init : Bool × CoreState := (true, initCore)

/-- Modelled from the spec: `mesen_shutdown` — release everything and
return to the freshly initialized state. -/
def mesen_shutdown (_c : CoreState) : CoreState := initCore

/-- `mesen_get_state` — the current emulator state. -/
def mesen_get_state (c : CoreState) : MesenState := c.state

/-- `mesen_is_rom_loaded` — whether a cartridge is currently loaded. -/
def mesen_is_rom_loaded (c : CoreState) : Bool := c.rom.isSome

/-- Modelled from the spec: `mesen_load_rom_data` — validate the header,
reject unimplemented mappers at load time, and on success install the
cartridge with a freshly initialized MachineState, entering the loaded
(`Idle`-with-ROM) state with the frame counter cleared.  On any failure
the previous core state is returned untouched. -/
def mesen_load_rom_data (d : List Nat) (c : CoreState) :
    MesenLoadResult × CoreState :=
  if headerValid d = false then (MesenLoadResult.InvalidROM, c)
  else if (supportedMappers.contains (mapperOf d)) = false then
    (MesenLoadResult.UnsupportedMapper, c)
  else
    let cart := parseCartridge d
    (MesenLoadResult.Success,
      { c with
        state := MesenState.Idle
        rom := some cart
        machine := initMachine cart
        frameBuffer := blankFrame
        audioBuffer := []
        quickSlot := none
        frameCount := 0 })

/-- Modelled from the spec: `mesen_load_rom_file` — resolve the path
against the host filesystem (modelled as a partial map from paths to
byte contents); a missing file is `FileNotFound`, otherwise the bytes are
loaded as by `mesen_load_rom_data`. -/
def mesen_load_rom_file (fs : String → Option (List Nat)) (path : String)
    (c : CoreState) : MesenLoadResult × CoreState :=
  match fs path with
  | none => (MesenLoadResult.FileNotFound, c)
  | some d => mesen_load_rom_data d c

/-- Modelled from the spec: `mesen_unload_rom` — release the Cartridge
Image, reset the MachineState and return to `Idle`. -/
def mesen_unload_rom (c : CoreState) : CoreState :=
  { c with
    state := MesenState.Idle
    rom := none
    machine := emptyMachine
    frameBuffer := blankFrame
    audioBuffer := []
    quickSlot := none
    frameCount := 0 }

/-- Modelled from the spec: `mesen_start` — requires the loaded-and-ready
state (`Idle` with a ROM present, the header enum having no separate
Ready value) and transitions to `Running`; in any other situation it is a
benign no-op. -/
def mesen_start (c : CoreState) : CoreState :=
  match c.rom with
  | some _ =>
    if c.state = MesenState.Idle then { c with state := MesenState.Running }
    else c
  | none => c

/-- Modelled from the spec: `mesen_pause` — `Running → Paused`, otherwise
a no-op. -/
def mesen_pause (c : CoreState) : CoreState :=
  if c.state = MesenState.Running then { c with state := MesenState.Paused }
  else c

/-- Modelled from the spec: `mesen_resume` — `Paused → Running`, otherwise
a no-op. -/
def mesen_resume (c : CoreState) : CoreState :=
  if c.state = MesenState.Paused then { c with state := MesenState.Running }
  else c

/-- Modelled from the spec: `mesen_stop` — leave the running/paused regime
and return to the loaded (`Idle`) state, keeping the cartridge. -/
def mesen_stop (c : CoreState) : CoreState :=
  { c with state := MesenState.Idle }

/-- Modelled from the spec: `mesen_reset` (soft reset) — re-initialize
the CPU/Picture/Audio registers, preserve work RAM, battery RAM and the
mapper bank register, and stay in the current run state. -/
def mesen_reset (c : CoreState) : CoreState :=
  match c.rom with
  | some cart =>
    { c with machine :=
      { initMachine cart with
        wram := c.machine.wram
        batteryRam := c.machine.batteryRam
        mapperReg := c.machine.mapperReg } }
  | none => c

/-- Modelled from the spec: `mesen_power_cycle` (hard reset) —
re-initialize the full MachineState as if the cartridge were freshly
loaded, clearing volatile RAM and the output buffers; the run state is
kept. -/
def mesen_power_cycle (c : CoreState) : CoreState :=
  match c.rom with
  | some cart =>
    { c with
      machine := initMachine cart
      frameBuffer := blankFrame
      audioBuffer := []
      frameCount := 0 }
  | none => c

/-- Modelled from the spec: the state update `mesen_run_frame` performs
when it actually runs a frame: advance the MachineState by one frame from
the latched input, overwrite the frame buffer in place, replace the audio
buffer with this frame's mix, and increment the frame counter. -/
def advanceFrame (cart : Cartridge) (c : CoreState) : CoreState :=
  let m := stepFrame cart c.pad0 c.pad1 c.machine
  { c with
    machine := m
    frameBuffer := renderFrame cart m
    audioBuffer := mixFrame c.audioCfg m.apu
    frameCount := c.frameCount + 1 }

/-- Modelled from the spec: `mesen_run_frame` — advances the machine by
exactly one video frame's worth of cycles only when the core is `Running`
with a ROM loaded; in every other state the call is a benign no-op. -/
def mesen_run_frame (c : CoreState) : CoreState :=
  match c.rom with
  | some cart =>
    if c.state = MesenState.Running then advanceFrame cart c else c
  | none => c

/-- `mesen_get_frame_buffer` — the RGBA pixel data of the last frame. -/
def mesen_get_frame_buffer (c : CoreState) : List Nat := c.frameBuffer

/-- Modelled from the spec: `mesen_set_input` — replace the whole 8-bit
button mask of controller 0 or 1 (the `uint8_t` argument truncates to a
byte); other controller indices are ignored. -/
def mesen_set_input (controller : Nat) (buttons : Nat) (c : CoreState) :
    CoreState :=
  if controller = 0 then { c with pad0 := buttons % 256 }
  else if controller = 1 then { c with pad1 := buttons % 256 }
  else c

/-- Modelled from the spec: `mesen_set_button` — set or clear one button
flag in the chosen controller's mask (`mask |= button` respectively
`mask &= ~button` on the 8-bit mask), leaving every other bit alone. -/
def mesen_set_button (controller : Nat) (button : Nat) (pressed : Bool)
    (c : CoreState) : CoreState :=
  if controller = 0 then
    { c with pad0 :=
      if pressed then (c.pad0 ||| button) % 256
      else (c.pad0 &&& (255 ^^^ button % 256)) % 256 }
  else if controller = 1 then
    { c with pad1 :=
      if pressed then (c.pad1 ||| button) % 256
      else (c.pad1 &&& (255 ^^^ button % 256)) % 256 }
  else c

/-- Modelled from the spec: `mesen_get_audio_samples` — copy out at most
`maxSamples` samples generated during the last frame, returning the count
written; the returned samples are drained from the core's buffer. -/
def mesen_get_audio_samples (maxSamples : Nat) (c : CoreState) :
    (Nat × List Int) × CoreState :=
  let out := c.audioBuffer.take maxSamples
  ((out.length, out), { c with audioBuffer := c.audioBuffer.drop maxSamples })

/-- Modelled from the spec: `mesen_get_sample_rate` — the fixed output
sample rate in Hz. -/
def mesen_get_sample_rate : Nat := 44100

/-- Modelled from the spec: `mesen_save_state` — with a ROM loaded and a
slot in 0–9, store a snapshot (compatibility tag plus MachineState copy)
in the slot and succeed; otherwise fail leaving the core unchanged. -/
def mesen_save_state (slot : Nat) (c : CoreState) : Bool × CoreState :=
  match c.rom with
  | some cart =>
    if slot < 10 then
      (true, { c with slots := fun i =>
        (if i = slot then some { tag := cartTag cart, machine := c.machine }
         else c.slots i) })
    else (false, c)
  | none => (false, c)

/-- Modelled from the spec: `mesen_load_state` — with a ROM loaded, a slot
in 0–9 holding a snapshot whose compatibility tag matches the loaded
cartridge, restore the stored MachineState and succeed; otherwise fail
leaving the core unchanged. -/
def mesen_load_state (slot : Nat) (c : CoreState) : Bool × CoreState :=
  match c.rom with
  | some cart =>
    if slot < 10 then
      match c.slots slot with
      | some snap =>
        if snap.tag = cartTag cart then
          (true, { c with machine := snap.machine })
        else (false, c)
      | none => (false, c)
    else (false, c)
  | none => (false, c)

/-- Modelled from the spec: `mesen_quick_save` — write the reusable
scratch snapshot from the current MachineState (no-op without a ROM). -/
def mesen_quick_save (c : CoreState) : CoreState :=
  match c.rom with
  | some cart =>
    { c with quickSlot := some { tag := cartTag cart, machine := c.machine } }
  | none => c

/-- Modelled from the spec: `mesen_quick_load` — restore the MachineState
from the scratch snapshot when present and compatible with the loaded
cartridge; otherwise a no-op. -/
def mesen_quick_load (c : CoreState) : CoreState :=
  match c.rom with
  | some cart =>
    match c.quickSlot with
    | some snap =>
      if snap.tag = cartTag cart then { c with machine := snap.machine }
      else c
    | none => c
  | none => c

/-- Modelled from the spec: `mesen_set_overscan` — record the
presentation-time crop; it never touches MachineState or timing. -/
def mesen_set_overscan (top bottom left right : Nat) (c : CoreState) :
    CoreState :=
  { c with overscanTop := top, overscanBottom := bottom,
           overscanLeft := left, overscanRight := right }

/-- Modelled from the spec: `mesen_set_audio_channels` — record the five
per-channel enable flags; configuration only, the channel generators
themselves are untouched. -/
def mesen_set_audio_channels (square1 square2 triangle noise dmc : Bool)
    (c : CoreState) : CoreState :=
  { c with audioCfg :=
    { square1 := square1, square2 := square2, triangle := triangle,
      noise := noise, dmc := dmc } }

/-- `mesen_get_frame_count` — the monotonic frame counter since ROM
load. -/
def mesen_get_frame_count (c : CoreState) : Nat := c.frameCount

/-- Modelled from the spec: leading magic word of a SnapshotBlob (the
blob is versioned and self-describing). -/
def snapMagic : Nat := 77

/-- Modelled from the spec: version word of the SnapshotBlob encoding. -/
def snapVersion : Nat := 1

/-- Modelled from the spec: serialize a MachineState together with the
Cartridge compatibility tag into a self-describing SnapshotBlob: magic,
version, three tag words, the fixed registers/counters, then the
length-prefixed work RAM and battery RAM images. -/
def encodeSnapshot (cart : Cartridge) (m : MachineState) : List Nat :=
  [snapMagic, snapVersion] ++ cartTag cart ++
  [m.cpu.pc, m.cpu.a, m.cpu.x, m.cpu.y, m.cpu.sp, m.cpu.p,
   m.ppu.scanline, m.ppu.dot, if m.ppu.vblank then 1 else 0,
   m.apu.sq1.period, m.apu.sq1.phase, m.apu.sq1.envelope, m.apu.sq1.lengthCtr,
   m.apu.sq2.period, m.apu.sq2.phase, m.apu.sq2.envelope, m.apu.sq2.lengthCtr,
   m.apu.tri.period, m.apu.tri.phase, m.apu.tri.envelope, m.apu.tri.lengthCtr,
   m.apu.noi.period, m.apu.noi.phase, m.apu.noi.envelope, m.apu.noi.lengthCtr,
   m.apu.dmc.period, m.apu.dmc.phase, m.apu.dmc.envelope, m.apu.dmc.lengthCtr,
   m.mapperReg, m.wram.length] ++
  m.wram ++ [m.batteryRam.length] ++ m.batteryRam

/-- Modelled from the spec: validate and decode a SnapshotBlob, returning
the embedded compatibility tag and MachineState; a malformed or truncated
blob (wrong magic or version, inconsistent length, out-of-range flag)
yields `none`. -/
def decodeSnapshot (l : List Nat) : Option (List Nat × MachineState) :=
  let w := l.getD 35 0
  let b := l.getD (36 + w) 0
  if l.getD 0 0 = snapMagic ∧ l.getD 1 0 = snapVersion ∧
     l.getD 13 0 ≤ 1 ∧ l.length = 37 + w + b then
    some ([l.getD 2 0, l.getD 3 0, l.getD 4 0],
      { cpu := { pc := l.getD 5 0, a := l.getD 6 0, x := l.getD 7 0,
                 y := l.getD 8 0, sp := l.getD 9 0, p := l.getD 10 0 }
        wram := (l.drop 36).take w
        ppu := { scanline := l.getD 11 0, dot := l.getD 12 0,
                 vblank := l.getD 13 0 = 1 }
        apu :=
          { sq1 := { period := l.getD 14 0, phase := l.getD 15 0,
                     envelope := l.getD 16 0, lengthCtr := l.getD 17 0 }
            sq2 := { period := l.getD 18 0, phase := l.getD 19 0,
                     envelope := l.getD 20 0, lengthCtr := l.getD 21 0 }
            tri := { period := l.getD 22 0, phase := l.getD 23 0,
                     envelope := l.getD 24 0, lengthCtr := l.getD 25 0 }
            noi := { period := l.getD 26 0, phase := l.getD 27 0,
                     envelope := l.getD 28 0, lengthCtr := l.getD 29 0 }
            dmc := { period := l.getD 30 0, phase := l.getD 31 0,
                     envelope := l.getD 32 0, lengthCtr := l.getD 33 0 } }
        mapperReg := l.getD 34 0
        batteryRam := (l.drop (37 + w)).take b })
  else none

/-- Modelled from the spec: `mesen_save_state_to_buffer` — serialize the
snapshot into the caller's buffer of the given capacity, returning the
byte count written together with the bytes; on insufficient capacity or
no loaded ROM it returns 0 having written nothing. -/
def mesen_save_state_to_buffer (bufferSize : Nat) (c : CoreState) :
    Nat × List Nat :=
  match c.rom with
  | some cart =>
    let blob := encodeSnapshot cart c.machine
    if blob.length ≤ bufferSize then (blob.length, blob) else (0, [])
  | none => (0, [])

/-- Modelled from the spec: `mesen_load_state_from_buffer` — decode and
validate the caller's bytes; on a malformed blob, a compatibility-tag
mismatch with the loaded cartridge, or no loaded ROM, return false with
the core untouched, else restore the decoded MachineState. -/
def mesen_load_state_from_buffer (data : List Nat) (c : CoreState) :
    Bool × CoreState :=
  match c.rom with
  | some cart =>
    match decodeSnapshot data with
    | some tm =>
      if tm.1 = cartTag cart then (true, { c with machine := tm.2 })
      else (false, c)
    | none => (false, c)
  | none => (false, c)

/-- One host frame iteration: latch both controller masks for this frame,
then call `mesen_run_frame`. -/
def runInput (i : Nat × Nat) (c : CoreState) : CoreState :=
  mesen_run_frame (mesen_set_input 1 i.2 (mesen_set_input 0 i.1 c))

/-- The sequence of core states observed after each frame of an input
sequence. -/
def runSeq : List (Nat × Nat) → CoreState → List CoreState
  | [], _ => []
  | i :: l, c => runInput i c :: runSeq l (runInput i c)

/-- The core state after running a whole input sequence. -/
def runEnd : List (Nat × Nat) → CoreState → CoreState
  | [], c => c
  | i :: l, c => runEnd l (runInput i c)

/-- The per-frame FrameBuffer contents along an input sequence. -/
def videoTrace (l : List (Nat × Nat)) (c : CoreState) : List (List Nat) :=
  (runSeq l c).map CoreState.frameBuffer

/-- The per-frame audio sample buffers along an input sequence. -/
def audioTrace (l : List (Nat × Nat)) (c : CoreState) : List (List Int) :=
  (runSeq l c).map CoreState.audioBuffer

/-- Iterated `mesen_run_frame` with no input changes in between. -/
def runFrames : Nat → CoreState → CoreState
  | 0, c => c
  | n + 1, c => runFrames n (mesen_run_frame c)

/-- The core states reachable from `mesen_init` through the control
surface, closing over every modelled operation at arbitrary arguments. -/
inductive Reachable : CoreState → Prop where
  | init : Reachable mesen_init.2
  | shutdown {c} : Reachable c → Reachable (mesen_shutdown c)
  | load_file {c} (fs : String → Option (List Nat)) (path : String) :
      Reachable c → Reachable (mesen_load_rom_file fs path c).2
  | load_data {c} (d : List Nat) :
      Reachable c → Reachable (mesen_load_rom_data d c).2
  | unload {c} : Reachable c → Reachable (mesen_unload_rom c)
  | start {c} : Reachable c → Reachable (mesen_start c)
  | pause {c} : Reachable c → Reachable (mesen_pause c)
  | resume {c} : Reachable c → Reachable (mesen_resume c)
  | stop {c} : Reachable c → Reachable (mesen_stop c)
  | reset {c} : Reachable c → Reachable (mesen_reset c)
  | power_cycle {c} : Reachable c → Reachable (mesen_power_cycle c)
  | run_frame {c} : Reachable c → Reachable (mesen_run_frame c)
  | set_input {c} (controller buttons : Nat) :
      Reachable c → Reachable (mesen_set_input controller buttons c)
  | set_button {c} (controller button : Nat) (pressed : Bool) :
      Reachable c → Reachable (mesen_set_button controller button pressed c)
  | get_audio_samples {c} (maxSamples : Nat) :
      Reachable c → Reachable (mesen_get_audio_samples maxSamples c).2
  | save_state {c} (slot : Nat) :
      Reachable c → Reachable (mesen_save_state slot c).2
  | load_state {c} (slot : Nat) :
      Reachable c → Reachable (mesen_load_state slot c).2
  | load_from_buffer {c} (data : List Nat) :
      Reachable c → Reachable (mesen_load_state_from_buffer data c).2
  | quick_save {c} : Reachable c → Reachable (mesen_quick_save c)
  | quick_load {c} : Reachable c → Reachable (mesen_quick_load c)
  | set_overscan {c} (top bottom left right : Nat) :
      Reachable c → Reachable (mesen_set_overscan top bottom left right c)
  | set_audio_channels {c} (s1 s2 tr no dm : Bool) :
      Reachable c → Reachable (mesen_set_audio_channels s1 s2 tr no dm c)

section Preservation

lemma run_frame_of_not_running {c : CoreState} (h : c.state ≠ MesenState.Running) :
    mesen_run_frame c = c := by
  unfold mesen_run_frame
  cases hr : c.rom with
  | none => rfl
  | some cart => simp [h]

lemma run_frame_of_running {c : CoreState} {cart : Cartridge}
    (hs : c.state = MesenState.Running) (hr : c.rom = some cart) :
    mesen_run_frame c = advanceFrame cart c := by
  unfold mesen_run_frame
  rw [hr]
  simp [hs]

lemma run_frame_of_no_rom {c : CoreState} (hr : c.rom = none) :
    mesen_run_frame c = c := by
  unfold mesen_run_frame
  rw [hr]

lemma run_frame_state (c : CoreState) : (mesen_run_frame c).state = c.state := by
  by_cases hs : c.state = MesenState.Running
  · cases hr : c.rom with
    | none => rw [run_frame_of_no_rom hr]
    | some cart => rw [run_frame_of_running hs hr]; simp [advanceFrame]
  · rw [run_frame_of_not_running hs]

lemma run_frame_rom (c : CoreState) : (mesen_run_frame c).rom = c.rom := by
  by_cases hs : c.state = MesenState.Running
  · cases hr : c.rom with
    | none => rw [run_frame_of_no_rom hr]; exact hr
    | some cart => rw [run_frame_of_running hs hr]; simp [advanceFrame]; exact hr
  · rw [run_frame_of_not_running hs]

lemma run_frame_cfg (c : CoreState) :
    (mesen_run_frame c).audioCfg = c.audioCfg := by
  by_cases hs : c.state = MesenState.Running
  · cases hr : c.rom with
    | none => rw [run_frame_of_no_rom hr]
    | some cart => rw [run_frame_of_running hs hr]; simp [advanceFrame]
  · rw [run_frame_of_not_running hs]

lemma run_frame_quickSlot (c : CoreState) :
    (mesen_run_frame c).quickSlot = c.quickSlot := by
  by_cases hs : c.state = MesenState.Running
  · cases hr : c.rom with
    | none => rw [run_frame_of_no_rom hr]
    | some cart => rw [run_frame_of_running hs hr]; simp [advanceFrame]
  · rw [run_frame_of_not_running hs]

lemma run_frame_slots (c : CoreState) :
    (mesen_run_frame c).slots = c.slots := by
  by_cases hs : c.state = MesenState.Running
  · cases hr : c.rom with
    | none => rw [run_frame_of_no_rom hr]
    | some cart => rw [run_frame_of_running hs hr]; simp [advanceFrame]
  · rw [run_frame_of_not_running hs]

lemma run_frame_frameCount_le (c : CoreState) :
    c.frameCount ≤ (mesen_run_frame c).frameCount := by
  by_cases hs : c.state = MesenState.Running
  · cases hr : c.rom with
    | none => rw [run_frame_of_no_rom hr]
    | some cart =>
      rw [run_frame_of_running hs hr]
      simp [advanceFrame]
  · rw [run_frame_of_not_running hs]

lemma set_input_zero (b : Nat) (c : CoreState) :
    mesen_set_input 0 b c = { c with pad0 := b % 256 } := rfl

lemma set_input_one (b : Nat) (c : CoreState) :
    mesen_set_input 1 b c = { c with pad1 := b % 256 } := rfl

lemma runInput_def (i : Nat × Nat) (c : CoreState) :
    runInput i c =
      mesen_run_frame { c with pad0 := i.1 % 256, pad1 := i.2 % 256 } := rfl

lemma runInput_state (i : Nat × Nat) (c : CoreState) :
    (runInput i c).state = c.state := by
  rw [runInput_def]; exact run_frame_state _

lemma runInput_rom (i : Nat × Nat) (c : CoreState) :
    (runInput i c).rom = c.rom := by
  rw [runInput_def]; exact run_frame_rom _

lemma runInput_cfg (i : Nat × Nat) (c : CoreState) :
    (runInput i c).audioCfg = c.audioCfg := by
  rw [runInput_def]; exact run_frame_cfg _

lemma runInput_quickSlot (i : Nat × Nat) (c : CoreState) :
    (runInput i c).quickSlot = c.quickSlot := by
  rw [runInput_def]; exact run_frame_quickSlot _

lemma runInput_slots (i : Nat × Nat) (c : CoreState) :
    (runInput i c).slots = c.slots := by
  rw [runInput_def]; exact run_frame_slots _

lemma runEnd_state (l : List (Nat × Nat)) :
    ∀ c : CoreState, (runEnd l c).state = c.state := by
  induction l with
  | nil => intro c; rfl
  | cons i l ih =>
    intro c
    rw [runEnd, ih (runInput i c), runInput_state]

lemma runEnd_rom (l : List (Nat × Nat)) :
    ∀ c : CoreState, (runEnd l c).rom = c.rom := by
  induction l with
  | nil => intro c; rfl
  | cons i l ih =>
    intro c
    rw [runEnd, ih (runInput i c), runInput_rom]

lemma runEnd_cfg (l : List (Nat × Nat)) :
    ∀ c : CoreState, (runEnd l c).audioCfg = c.audioCfg := by
  induction l with
  | nil => intro c; rfl
  | cons i l ih =>
    intro c
    rw [runEnd, ih (runInput i c), runInput_cfg]

lemma runEnd_quickSlot (l : List (Nat × Nat)) :
    ∀ c : CoreState, (runEnd l c).quickSlot = c.quickSlot := by
  induction l with
  | nil => intro c; rfl
  | cons i l ih =>
    intro c
    rw [runEnd, ih (runInput i c), runInput_quickSlot]

end Preservation

section Congruence

lemma runInput_run {c : CoreState} {cart : Cartridge} (i : Nat × Nat)
    (hs : c.state = MesenState.Running) (hr : c.rom = some cart) :
    runInput i c =
      { c with
        pad0 := i.1 % 256
        pad1 := i.2 % 256
        machine := stepFrame cart (i.1 % 256) (i.2 % 256) c.machine
        frameBuffer :=
          renderFrame cart (stepFrame cart (i.1 % 256) (i.2 % 256) c.machine)
        audioBuffer :=
          mixFrame c.audioCfg
            (stepFrame cart (i.1 % 256) (i.2 % 256) c.machine).apu
        frameCount := c.frameCount + 1 } := by
  rw [runInput_def]
  rw [run_frame_of_running (c := { c with pad0 := i.1 % 256, pad1 := i.2 % 256 })
    hs hr]
  simp [advanceFrame]

/-- Core congruence: from two `Running` cores holding the same cartridge
and the same MachineState, equal input sequences produce equal video
traces, equal audio traces whenever the audio configurations agree, and
equal final MachineStates — the spec's "MachineState fully determines all
future behavior given only subsequent input". -/
lemma runSeq_congr (cart : Cartridge) :
    ∀ (l : List (Nat × Nat)) (c1 c2 : CoreState),
      c1.state = MesenState.Running → c2.state = MesenState.Running →
      c1.rom = some cart → c2.rom = some cart →
      c1.machine = c2.machine →
      videoTrace l c1 = videoTrace l c2 ∧
      (c1.audioCfg = c2.audioCfg → audioTrace l c1 = audioTrace l c2) ∧
      (runEnd l c1).machine = (runEnd l c2).machine := by
  intro l
  induction l with
  | nil =>
    intro c1 c2 _ _ _ _ hm
    exact ⟨rfl, fun _ => rfl, hm⟩
  | cons i l ih =>
    intro c1 c2 hs1 hs2 hr1 hr2 hm
    have hks1 : (runInput i c1).state = MesenState.Running := by
      rw [runInput_state]; exact hs1
    have hks2 : (runInput i c2).state = MesenState.Running := by
      rw [runInput_state]; exact hs2
    have hkr1 : (runInput i c1).rom = some cart := by
      rw [runInput_rom]; exact hr1
    have hkr2 : (runInput i c2).rom = some cart := by
      rw [runInput_rom]; exact hr2
    have hkm : (runInput i c1).machine = (runInput i c2).machine := by
      rw [runInput_run i hs1 hr1, runInput_run i hs2 hr2]
      simp [hm]
    obtain ⟨ihv, iha, ihm⟩ :=
      ih (runInput i c1) (runInput i c2) hks1 hks2 hkr1 hkr2 hkm
    refine ⟨?_, ?_, ?_⟩
    · show (runInput i c1).frameBuffer :: videoTrace l (runInput i c1) =
        (runInput i c2).frameBuffer :: videoTrace l (runInput i c2)
      rw [ihv]
      have : (runInput i c1).frameBuffer = (runInput i c2).frameBuffer := by
        rw [runInput_run i hs1 hr1, runInput_run i hs2 hr2]
        simp [hm]
      rw [this]
    · intro hcfg
      have hkcfg : (runInput i c1).audioCfg = (runInput i c2).audioCfg := by
        rw [runInput_cfg, runInput_cfg]; exact hcfg
      show (runInput i c1).audioBuffer :: audioTrace l (runInput i c1) =
        (runInput i c2).audioBuffer :: audioTrace l (runInput i c2)
      rw [iha hkcfg]
      have : (runInput i c1).audioBuffer = (runInput i c2).audioBuffer := by
        rw [runInput_run i hs1 hr1, runInput_run i hs2 hr2]
        simp [hm, hcfg]
      rw [this]
    · exact ihm

lemma runInput_of_no_rom (i : Nat × Nat) {c : CoreState} (hr : c.rom = none) :
    runInput i c = { c with pad0 := i.1 % 256, pad1 := i.2 % 256 } := by
  rw [runInput_def]
  exact run_frame_of_no_rom hr

lemma runInput_of_not_running (i : Nat × Nat) {c : CoreState}
    (hs : c.state ≠ MesenState.Running) :
    runInput i c = { c with pad0 := i.1 % 256, pad1 := i.2 % 256 } := by
  rw [runInput_def]
  exact run_frame_of_not_running hs

/-- The MachineState evolution is independent of everything outside
(state, rom, machine): in particular the audio enable flags, the slot
storage and the output buffers never feed back into the simulation. -/
lemma runInput_machine_congr (i : Nat × Nat) {c1 c2 : CoreState}
    (hs : c1.state = c2.state) (hr : c1.rom = c2.rom)
    (hm : c1.machine = c2.machine) :
    (runInput i c1).machine = (runInput i c2).machine := by
  cases hr2 : c2.rom with
  | none =>
    rw [runInput_of_no_rom i (hr.trans hr2), runInput_of_no_rom i hr2]
    exact hm
  | some cart =>
    by_cases hrun : c2.state = MesenState.Running
    · have h1 : c1.state = MesenState.Running := hs.trans hrun
      rw [runInput_run i h1 (hr.trans hr2), runInput_run i hrun hr2]
      simp [hm]
    · have h1 : c1.state ≠ MesenState.Running := by rw [hs]; exact hrun
      rw [runInput_of_not_running i h1, runInput_of_not_running i hrun]
      exact hm

lemma runEnd_machine_congr :
    ∀ (l : List (Nat × Nat)) (c1 c2 : CoreState),
      c1.state = c2.state → c1.rom = c2.rom → c1.machine = c2.machine →
      (runEnd l c1).machine = (runEnd l c2).machine := by
  intro l
  induction l with
  | nil => intro c1 c2 _ _ hm; exact hm
  | cons i l ih =>
    intro c1 c2 hs hr hm
    exact ih (runInput i c1) (runInput i c2)
      (by rw [runInput_state, runInput_state]; exact hs)
      (by rw [runInput_rom, runInput_rom]; exact hr)
      (runInput_machine_congr i hs hr hm)

/-- Agreement on the observation-relevant fields: everything except the
slot storage, the quick-save scratch, overscan and the frame counter. -/
def ObsAgree (c1 c2 : CoreState) : Prop :=
  c1.state = c2.state ∧ c1.rom = c2.rom ∧ c1.machine = c2.machine ∧
  c1.frameBuffer = c2.frameBuffer ∧ c1.audioBuffer = c2.audioBuffer ∧
  c1.audioCfg = c2.audioCfg

lemma runInput_obsAgree (i : Nat × Nat) {c1 c2 : CoreState}
    (h : ObsAgree c1 c2) : ObsAgree (runInput i c1) (runInput i c2) := by
  obtain ⟨hs, hr, hm, hf, ha, hcfg⟩ := h
  cases hr2 : c2.rom with
  | none =>
    rw [runInput_of_no_rom i (hr.trans hr2), runInput_of_no_rom i hr2]
    exact ⟨hs, hr, hm, hf, ha, hcfg⟩
  | some cart =>
    by_cases hrun : c2.state = MesenState.Running
    · have h1 : c1.state = MesenState.Running := hs.trans hrun
      rw [runInput_run i h1 (hr.trans hr2), runInput_run i hrun hr2]
      exact ⟨hs, hr, by simp [hm], by simp [hm], by simp [hm, hcfg], hcfg⟩
    · have h1 : c1.state ≠ MesenState.Running := by rw [hs]; exact hrun
      rw [runInput_of_not_running i h1, runInput_of_not_running i hrun]
      exact ⟨hs, hr, hm, hf, ha, hcfg⟩

/-- Traces depend only on the observation-relevant fields: two cores that
differ at most in slot storage, quick-save scratch, overscan, latched
pads and frame counter produce identical video and audio traces. -/
lemma runSeq_obsAgree :
    ∀ (l : List (Nat × Nat)) (c1 c2 : CoreState), ObsAgree c1 c2 →
      videoTrace l c1 = videoTrace l c2 ∧
      audioTrace l c1 = audioTrace l c2 ∧
      ObsAgree (runEnd l c1) (runEnd l c2) := by
  intro l
  induction l with
  | nil => intro c1 c2 h; exact ⟨rfl, rfl, h⟩
  | cons i l ih =>
    intro c1 c2 h
    have hstep := runInput_obsAgree i h
    obtain ⟨ihv, iha, ihagree⟩ := ih (runInput i c1) (runInput i c2) hstep
    refine ⟨?_, ?_, ihagree⟩
    · show (runInput i c1).frameBuffer :: videoTrace l (runInput i c1) =
        (runInput i c2).frameBuffer :: videoTrace l (runInput i c2)
      rw [ihv, hstep.2.2.2.1]
    · show (runInput i c1).audioBuffer :: audioTrace l (runInput i c1) =
        (runInput i c2).audioBuffer :: audioTrace l (runInput i c2)
      rw [iha, hstep.2.2.2.2.1]

end Congruence

section OperationEquations

lemma power_cycle_eq {c : CoreState} {cart : Cartridge}
    (hr : c.rom = some cart) :
    mesen_power_cycle c =
      { c with machine := initMachine cart, frameBuffer := blankFrame,
               audioBuffer := [], frameCount := 0 } := by
  unfold mesen_power_cycle
  rw [hr]

lemma quick_save_eq {c : CoreState} {cart : Cartridge}
    (hr : c.rom = some cart) :
    mesen_quick_save c =
      { c with quickSlot :=
        (some { tag := cartTag cart, machine := c.machine }) } := by
  unfold mesen_quick_save
  rw [hr]

lemma quick_load_eq {c : CoreState} {cart : Cartridge} {snap : Snapshot}
    (hr : c.rom = some cart) (hq : c.quickSlot = some snap)
    (ht : snap.tag = cartTag cart) :
    mesen_quick_load c = { c with machine := snap.machine } := by
  unfold mesen_quick_load
  rw [hr, hq]
  simp [ht]

end OperationEquations

section Fixtures

/-- A minimal well-formed .nes image: the iNES magic, one declared PRG
bank, mapper 0, and a small PRG payload. -/
def testRomImage : List Nat :=
  nesMagic ++ [1, 0, 0, 0, 0, 0, 0, 0, 0, 0, 0, 0] ++ List.replicate 64 7

/-- The Cartridge Image the test image parses to. -/
def testCart : Cartridge := parseCartridge testRomImage

/-- The core right after loading the test image. -/
def coreLoaded : CoreState := (mesen_load_rom_data testRomImage initCore).2

/-- The core running the test image. -/
def coreRunning : CoreState := mesen_start coreLoaded

end Fixtures

/-- C1: Determinism — with a fixed loaded ROM and per-frame input
sequence, two runs over cores holding that ROM (and the same audio
configuration) that each start with `mesen_power_cycle` and then execute
the same `mesen_run_frame` sequence with the same inputs produce
byte-identical FrameBuffer contents and byte-identical audio sample
sequences at every frame. -/
theorem determinism_from_power_cycle (c1 c2 : CoreState) (cart : Cartridge)
    (inputs : List (Nat × Nat))
    (hr1 : c1.rom = some cart) (hr2 : c2.rom = some cart)
    (hs1 : c1.state = MesenState.Running) (hs2 : c2.state = MesenState.Running)
    (hcfg : c1.audioCfg = c2.audioCfg) :
    videoTrace inputs (mesen_power_cycle c1) =
      videoTrace inputs (mesen_power_cycle c2) ∧
    audioTrace inputs (mesen_power_cycle c1) =
      audioTrace inputs (mesen_power_cycle c2) := by
  obtain ⟨hv, ha, -⟩ := runSeq_obsAgree inputs
    (mesen_power_cycle c1) (mesen_power_cycle c2)
    ⟨by rw [power_cycle_eq hr1, power_cycle_eq hr2]; exact hs1.trans hs2.symm,
     by rw [power_cycle_eq hr1, power_cycle_eq hr2]; exact hr1.trans hr2.symm,
     by rw [power_cycle_eq hr1, power_cycle_eq hr2],
     by rw [power_cycle_eq hr1, power_cycle_eq hr2],
     by rw [power_cycle_eq hr1, power_cycle_eq hr2],
     by rw [power_cycle_eq hr1, power_cycle_eq hr2]; exact hcfg⟩
  exact ⟨hv, ha⟩

/-- Closed instance of C1 at a concrete running core and input list. -/
theorem determinism_from_power_cycle_witness :
    videoTrace [(1, 2), (0, 0)] (mesen_power_cycle coreRunning) =
      videoTrace [(1, 2), (0, 0)]
        (mesen_power_cycle (mesen_quick_save coreRunning)) ∧
    audioTrace [(1, 2), (0, 0)] (mesen_power_cycle coreRunning) =
      audioTrace [(1, 2), (0, 0)]
        (mesen_power_cycle (mesen_quick_save coreRunning)) :=
  determinism_from_power_cycle coreRunning (mesen_quick_save coreRunning)
    testCart [(1, 2), (0, 0)] rfl rfl rfl rfl rfl

/-- C2: Quick-snapshot rollback — from any running core with a ROM
loaded, calling `mesen_quick_save`, advancing N frames, calling
`mesen_quick_load` and re-advancing the same N frames with the same
inputs yields frames (and audio) byte-identical to the original N
frames. -/
theorem quick_snapshot_rollback (c : CoreState) (cart : Cartridge)
    (inputs : List (Nat × Nat))
    (hr : c.rom = some cart) (hs : c.state = MesenState.Running) :
    videoTrace inputs
        (mesen_quick_load (runEnd inputs (mesen_quick_save c))) =
      videoTrace inputs (mesen_quick_save c) ∧
    audioTrace inputs
        (mesen_quick_load (runEnd inputs (mesen_quick_save c))) =
      audioTrace inputs (mesen_quick_save c) := by
  have h0r : (mesen_quick_save c).rom = some cart := by
    rw [quick_save_eq hr]; exact hr
  have h0s : (mesen_quick_save c).state = MesenState.Running := by
    rw [quick_save_eq hr]; exact hs
  have h1 : (runEnd inputs (mesen_quick_save c)).rom = some cart := by
    rw [runEnd_rom]; exact h0r
  have h2 : (runEnd inputs (mesen_quick_save c)).state = MesenState.Running := by
    rw [runEnd_state]; exact h0s
  have h3 : (runEnd inputs (mesen_quick_save c)).quickSlot =
      some { tag := cartTag cart, machine := c.machine } := by
    rw [runEnd_quickSlot, quick_save_eq hr]
  have hql := quick_load_eq h1 h3 rfl
  obtain ⟨hv, ha, -⟩ := runSeq_congr cart inputs
    (mesen_quick_load (runEnd inputs (mesen_quick_save c)))
    (mesen_quick_save c)
    (by rw [hql]; exact h2)
    h0s
    (by rw [hql]; exact h1)
    h0r
    (by rw [hql, quick_save_eq hr])
  refine ⟨hv, ha ?_⟩
  rw [hql, runEnd_cfg]

/-- Closed instance of C2 at a concrete running core and input list. -/
theorem quick_snapshot_rollback_witness :
    videoTrace [(5, 0)]
        (mesen_quick_load (runEnd [(5, 0)] (mesen_quick_save coreRunning))) =
      videoTrace [(5, 0)] (mesen_quick_save coreRunning) ∧
    audioTrace [(5, 0)]
        (mesen_quick_load (runEnd [(5, 0)] (mesen_quick_save coreRunning))) =
      audioTrace [(5, 0)] (mesen_quick_save coreRunning) :=
  quick_snapshot_rollback coreRunning testCart [(5, 0)] rfl rfl

lemma save_state_eq {c : CoreState} {cart : Cartridge} {slot : Nat}
    (hr : c.rom = some cart) (hsl : slot < 10) :
    mesen_save_state slot c =
      (true, { c with slots := fun i =>
        (if i = slot then some { tag := cartTag cart, machine := c.machine }
         else c.slots i) }) := by
  unfold mesen_save_state
  rw [hr]
  simp [hsl]

lemma load_after_save {c : CoreState} {cart : Cartridge} {slot : Nat}
    (hr : c.rom = some cart) (hsl : slot < 10) :
    mesen_load_state slot (mesen_save_state slot c).2 =
      (true, { c with
        machine := c.machine
        slots := fun i =>
          (if i = slot then some { tag := cartTag cart, machine := c.machine }
           else c.slots i) }) := by
  rw [save_state_eq hr hsl]
  unfold mesen_load_state
  simp [hr, hsl]

/-- C3: Snapshot round-trip — with a ROM loaded and a slot in 0–9,
`mesen_save_state slot` immediately followed by `mesen_load_state slot`
succeeds and then produces exactly the frames (and audio) that running
the same inputs without the save/load pair would produce. -/
theorem save_load_round_trip (c : CoreState) (cart : Cartridge) (slot : Nat)
    (inputs : List (Nat × Nat))
    (hr : c.rom = some cart) (hsl : slot < 10) :
    (mesen_load_state slot (mesen_save_state slot c).2).1 = true ∧
    videoTrace inputs (mesen_load_state slot (mesen_save_state slot c).2).2 =
      videoTrace inputs c ∧
    audioTrace inputs (mesen_load_state slot (mesen_save_state slot c).2).2 =
      audioTrace inputs c := by
  rw [load_after_save hr hsl]
  obtain ⟨hv, ha, -⟩ := runSeq_obsAgree inputs
    ({ c with
        machine := c.machine
        slots := fun i =>
          (if i = slot then some { tag := cartTag cart, machine := c.machine }
           else c.slots i) }) c
    ⟨rfl, rfl, rfl, rfl, rfl, rfl⟩
  exact ⟨rfl, hv, ha⟩

/-- Closed instance of C3 at a concrete running core, slot 3, one
frame. -/
theorem save_load_round_trip_witness :
    (mesen_load_state 3 (mesen_save_state 3 coreRunning).2).1 = true ∧
    videoTrace [(9, 9)]
        (mesen_load_state 3 (mesen_save_state 3 coreRunning).2).2 =
      videoTrace [(9, 9)] coreRunning ∧
    audioTrace [(9, 9)]
        (mesen_load_state 3 (mesen_save_state 3 coreRunning).2).2 =
      audioTrace [(9, 9)] coreRunning :=
  save_load_round_trip coreRunning testCart 3 [(9, 9)] rfl (by decide)

/-- C4: ROM-load failure is typed and atomic — a missing file yields
`FileNotFound`, a corrupt or missing header `InvalidROM`, an
unimplemented mapper id `UnsupportedMapper` (three distinct enum values),
a present file defers to the byte loader, and any non-`Success` outcome
of either entry point leaves the core state unchanged. -/
theorem rom_load_typed_atomic (fs : String → Option (List Nat))
    (path : String) (d : List Nat) (c : CoreState) :
    (fs path = none →
      mesen_load_rom_file fs path c = (MesenLoadResult.FileNotFound, c)) ∧
    (headerValid d = false →
      mesen_load_rom_data d c = (MesenLoadResult.InvalidROM, c)) ∧
    (headerValid d = true →
      supportedMappers.contains (mapperOf d) = false →
      mesen_load_rom_data d c = (MesenLoadResult.UnsupportedMapper, c)) ∧
    (fs path = some d →
      mesen_load_rom_file fs path c = mesen_load_rom_data d c) ∧
    ((mesen_load_rom_data d c).1 ≠ MesenLoadResult.Success →
      (mesen_load_rom_data d c).2 = c) ∧
    ((mesen_load_rom_file fs path c).1 ≠ MesenLoadResult.Success →
      (mesen_load_rom_file fs path c).2 = c) := by
  refine ⟨?_, ?_, ?_, ?_, ?_, ?_⟩
  · intro h
    unfold mesen_load_rom_file
    rw [h]
  · intro h
    unfold mesen_load_rom_data
    simp [h]
  · intro h1 h2
    unfold mesen_load_rom_data
    rw [h1, h2]
    simp
  · intro h
    unfold mesen_load_rom_file
    rw [h]
  · intro h
    unfold mesen_load_rom_data at h ⊢
    split_ifs at h ⊢ <;> simp_all
  · intro h
    unfold mesen_load_rom_file at h ⊢
    cases hf : fs path with
    | none => rfl
    | some d2 =>
      rw [hf] at h
      have h2 : (mesen_load_rom_data d2 c).1 ≠ MesenLoadResult.Success := h
      show (mesen_load_rom_data d2 c).2 = c
      unfold mesen_load_rom_data at h2 ⊢
      split_ifs at h2 ⊢ <;> simp_all

/-- Closed instances of C4: each failure is observed, typed and
state-preserving at concrete inputs (the unsupported-mapper image below
declares mapper 15, which the core does not implement). -/
theorem rom_load_typed_atomic_witness :
    mesen_load_rom_file (fun _ => none) "missing.nes" coreRunning =
      (MesenLoadResult.FileNotFound, coreRunning) ∧
    mesen_load_rom_data [1, 2, 3] coreRunning =
      (MesenLoadResult.InvalidROM, coreRunning) ∧
    mesen_load_rom_data
        (nesMagic ++ [1, 0, 240, 0, 0, 0, 0, 0, 0, 0, 0, 0]) coreRunning =
      (MesenLoadResult.UnsupportedMapper, coreRunning) ∧
    (mesen_load_rom_data [1, 2, 3] coreRunning).2 = coreRunning :=
  ⟨(rom_load_typed_atomic (fun _ => none) "missing.nes" [] coreRunning).1 rfl,
   (rom_load_typed_atomic (fun _ => none) "x" [1, 2, 3] coreRunning).2.1
     (by decide),
   (rom_load_typed_atomic (fun _ => none) "x"
     (nesMagic ++ [1, 0, 240, 0, 0, 0, 0, 0, 0, 0, 0, 0])
     coreRunning).2.2.1 (by decide) (by decide),
   (rom_load_typed_atomic (fun _ => none) "x" [1, 2, 3]
     coreRunning).2.2.2.2.1 (by decide)⟩

/-- C5: runFrame gating — `mesen_run_frame` advances the machine by
exactly one frame step (machine, frame buffer, audio buffer and frame
counter updated, nothing else) when the state is `Running` with its
loaded ROM, and is a complete no-op — machine, buffers and all
control-surface state untouched, no error — whenever the state is
`Paused`, `Idle` or `Error`. -/
theorem run_frame_gating (c : CoreState) (cart : Cartridge) :
    (c.state ≠ MesenState.Running → mesen_run_frame c = c) ∧
    (c.state = MesenState.Running → c.rom = some cart →
      mesen_run_frame c =
        { c with
          machine := stepFrame cart c.pad0 c.pad1 c.machine
          frameBuffer :=
            renderFrame cart (stepFrame cart c.pad0 c.pad1 c.machine)
          audioBuffer :=
            mixFrame c.audioCfg (stepFrame cart c.pad0 c.pad1 c.machine).apu
          frameCount := c.frameCount + 1 }) := by
  refine ⟨fun h => run_frame_of_not_running h, fun hs hr => ?_⟩
  rw [run_frame_of_running hs hr]
  simp [advanceFrame]

/-- Closed instances of C5: the paused core is left exactly unchanged,
and the running core advances by one frame step. -/
theorem run_frame_gating_witness :
    mesen_run_frame (mesen_pause coreRunning) = mesen_pause coreRunning ∧
    mesen_run_frame coreRunning =
      { coreRunning with
        machine := stepFrame testCart coreRunning.pad0 coreRunning.pad1
          coreRunning.machine
        frameBuffer := renderFrame testCart
          (stepFrame testCart coreRunning.pad0 coreRunning.pad1
            coreRunning.machine)
        audioBuffer := mixFrame coreRunning.audioCfg
          (stepFrame testCart coreRunning.pad0 coreRunning.pad1
            coreRunning.machine).apu
        frameCount := coreRunning.frameCount + 1 } :=
  ⟨(run_frame_gating (mesen_pause coreRunning) testCart).1 (by decide),
   (run_frame_gating coreRunning testCart).2 rfl rfl⟩

lemma run_frame_frameCount_running {c : CoreState} {cart : Cartridge}
    (hs : c.state = MesenState.Running) (hr : c.rom = some cart) :
    (mesen_run_frame c).frameCount = c.frameCount + 1 := by
  rw [run_frame_of_running hs hr]
  simp [advanceFrame]

lemma runFrames_frameCount (cart : Cartridge) :
    ∀ (n : Nat) (c : CoreState),
      c.state = MesenState.Running → c.rom = some cart →
      (runFrames n c).frameCount = c.frameCount + n := by
  intro n
  induction n with
  | zero => intro c _ _; rfl
  | succ n ih =>
    intro c hs hr
    have h1 : (mesen_run_frame c).state = MesenState.Running := by
      rw [run_frame_state]; exact hs
    have h2 : (mesen_run_frame c).rom = some cart := by
      rw [run_frame_rom]; exact hr
    show (runFrames n (mesen_run_frame c)).frameCount = c.frameCount + (n + 1)
    rw [ih (mesen_run_frame c) h1 h2, run_frame_frameCount_running hs hr]
    omega

lemma load_data_success_fields {d : List Nat} {c : CoreState}
    (h : (mesen_load_rom_data d c).1 = MesenLoadResult.Success) :
    (mesen_load_rom_data d c).2.state = MesenState.Idle ∧
    (mesen_load_rom_data d c).2.rom = some (parseCartridge d) ∧
    (mesen_load_rom_data d c).2.frameCount = 0 := by
  unfold mesen_load_rom_data at h ⊢
  split_ifs at h ⊢
  simp_all

lemma start_of_ready {c : CoreState} {cart : Cartridge}
    (hr : c.rom = some cart) (hi : c.state = MesenState.Idle) :
    mesen_start c = { c with state := MesenState.Running } := by
  unfold mesen_start
  rw [hr]
  simp [hi]

/-- C8: Frame counter — `mesen_run_frame` increments the monotonic frame
counter by exactly one while `Running` and never decreases it; and after
successfully loading any ROM and calling `mesen_start`, 60 calls to
`mesen_run_frame` leave `mesen_get_frame_count` equal to 60. -/
theorem frame_counter_monotonic (c c0 : CoreState) (cart : Cartridge)
    (d : List Nat) :
    (c.frameCount ≤ (mesen_run_frame c).frameCount) ∧
    (c.state = MesenState.Running → c.rom = some cart →
      (mesen_run_frame c).frameCount = c.frameCount + 1) ∧
    ((mesen_load_rom_data d c0).1 = MesenLoadResult.Success →
      mesen_get_frame_count
        (runFrames 60 (mesen_start (mesen_load_rom_data d c0).2)) = 60) := by
  refine ⟨run_frame_frameCount_le c,
    fun hs hr => run_frame_frameCount_running hs hr, fun h => ?_⟩
  obtain ⟨hst, hrom, hfc⟩ := load_data_success_fields h
  rw [start_of_ready hrom hst] at *
  show (runFrames 60 _).frameCount = 60
  rw [runFrames_frameCount (parseCartridge d) 60
    { (mesen_load_rom_data d c0).2 with state := MesenState.Running }
    rfl hrom]
  simpa using hfc

/-- Closed instance of C8: one gated increment on the running core, and
the 60-frame scenario on the concrete test image. -/
theorem frame_counter_monotonic_witness :
    (mesen_run_frame coreRunning).frameCount = coreRunning.frameCount + 1 ∧
    mesen_get_frame_count
      (runFrames 60 (mesen_start
        (mesen_load_rom_data testRomImage initCore).2)) = 60 :=
  ⟨(frame_counter_monotonic coreRunning initCore testCart []).2.1 rfl rfl,
   (frame_counter_monotonic coreRunning initCore testCart
     testRomImage).2.2 (by decide)⟩

/-- C6: Buffer snapshot atomicity — `mesen_load_state_from_buffer`
returns false with the core completely unchanged on a malformed or
truncated blob and on a Cartridge-tag mismatch with the loaded ROM, and
`mesen_save_state_to_buffer` returns 0 having written nothing whenever
the supplied capacity is insufficient (and whenever it returns 0 it has
written nothing). -/
theorem buffer_snapshot_atomic (data : List Nat) (c : CoreState)
    (cart : Cartridge) (cap : Nat) :
    (decodeSnapshot data = none →
      mesen_load_state_from_buffer data c = (false, c)) ∧
    (∀ tm : List Nat × MachineState, decodeSnapshot data = some tm →
      c.rom = some cart → tm.1 ≠ cartTag cart →
      mesen_load_state_from_buffer data c = (false, c)) ∧
    (c.rom = some cart → cap < (encodeSnapshot cart c.machine).length →
      mesen_save_state_to_buffer cap c = (0, [])) ∧
    ((mesen_save_state_to_buffer cap c).1 = 0 →
      (mesen_save_state_to_buffer cap c).2 = []) := by
  refine ⟨?_, ?_, ?_, ?_⟩
  · intro h
    unfold mesen_load_state_from_buffer
    cases hr : c.rom with
    | none => rfl
    | some cart2 => rw [h]
  · intro tm hdec hr hne
    unfold mesen_load_state_from_buffer
    rw [hr, hdec]
    simp [hne]
  · intro hr hcap
    unfold mesen_save_state_to_buffer
    rw [hr]
    have : ¬ (encodeSnapshot cart c.machine).length ≤ cap := by omega
    simp [this]
  · intro h
    unfold mesen_save_state_to_buffer at h ⊢
    cases hr : c.rom with
    | none => rfl
    | some cart2 =>
      rw [hr] at h
      have h2 : (if (encodeSnapshot cart2 c.machine).length ≤ cap then
          ((encodeSnapshot cart2 c.machine).length,
            encodeSnapshot cart2 c.machine)
        else ((0 : Nat), ([] : List Nat))).1 = 0 := h
      show (if (encodeSnapshot cart2 c.machine).length ≤ cap then
          ((encodeSnapshot cart2 c.machine).length,
            encodeSnapshot cart2 c.machine)
        else ((0 : Nat), ([] : List Nat))).2 = []
      split_ifs at h2 ⊢ with hle
      · simpa using List.eq_nil_of_length_eq_zero h2
      · rfl

/-- A core with a tiny foreign cartridge and empty RAM images, for
exercising the buffer snapshot paths on short blobs. -/
def smallCore : CoreState :=
  { initCore with
    rom := some { mapperId := 1, prg := [], chr := [] }
    machine := { emptyMachine with wram := [], batteryRam := [] } }

/-- The 37-word SnapshotBlob of `smallCore`. -/
def smallBlob : List Nat :=
  encodeSnapshot { mapperId := 1, prg := [], chr := [] }
    { emptyMachine with wram := [], batteryRam := [] }

/-- Closed instances of C6 at concrete inputs: an empty (truncated) blob
fails without mutation, a valid blob carrying a different cartridge's tag
fails without mutation, and a 10-word capacity is refused with nothing
written. -/
theorem buffer_snapshot_atomic_witness :
    mesen_load_state_from_buffer [] coreRunning = (false, coreRunning) ∧
    mesen_load_state_from_buffer smallBlob coreRunning =
      (false, coreRunning) ∧
    mesen_save_state_to_buffer 10 smallCore = (0, []) :=
  ⟨(buffer_snapshot_atomic [] coreRunning testCart 10).1 rfl,
   (buffer_snapshot_atomic smallBlob coreRunning testCart 10).2.1
     ([1, 0, 0], { emptyMachine with wram := [], batteryRam := [] })
     (by decide) rfl (by decide),
   (buffer_snapshot_atomic [] smallCore
     { mapperId := 1, prg := [], chr := [] } 10).2.2.1 rfl (by decide)⟩

/-- The control-surface invariant: whenever the core is `Running` or
`Paused`, a cartridge is loaded. -/
def StateInv (c : CoreState) : Prop :=
  c.state = MesenState.Running ∨ c.state = MesenState.Paused →
    c.rom.isSome = true

lemma stateInv_of_preserved {c c2 : CoreState}
    (h1 : c2.state = c.state) (h2 : c2.rom = c.rom)
    (ih : StateInv c) : StateInv c2 := by
  intro h
  rw [h2]
  exact ih (by rw [h1] at h; exact h)

lemma stateInv_of_idle {c2 : CoreState}
    (h1 : c2.state = MesenState.Idle) : StateInv c2 := by
  intro h
  rw [h1] at h
  rcases h with h | h <;> exact absurd h (by decide)

lemma stateInv_load_data (d : List Nat) {c : CoreState}
    (ih : StateInv c) : StateInv (mesen_load_rom_data d c).2 := by
  unfold mesen_load_rom_data
  split_ifs with h1 h2
  · exact ih
  · exact ih
  · exact stateInv_of_idle rfl

lemma stateInv_start {c : CoreState} (ih : StateInv c) :
    StateInv (mesen_start c) := by
  unfold mesen_start
  cases hr : c.rom with
  | none => exact ih
  | some cart =>
    split_ifs with h1
    · intro _
      simp [hr]
    · exact ih

lemma stateInv_pause {c : CoreState} (ih : StateInv c) :
    StateInv (mesen_pause c) := by
  unfold mesen_pause
  split_ifs with h1
  · intro _
    exact ih (Or.inl h1)
  · exact ih

lemma stateInv_resume {c : CoreState} (ih : StateInv c) :
    StateInv (mesen_resume c) := by
  unfold mesen_resume
  split_ifs with h1
  · intro _
    exact ih (Or.inr h1)
  · exact ih

lemma stateInv_reset {c : CoreState} (ih : StateInv c) :
    StateInv (mesen_reset c) := by
  unfold mesen_reset
  cases hr : c.rom with
  | none => exact ih
  | some cart =>
    intro _
    simp [hr]

lemma stateInv_power_cycle {c : CoreState} (ih : StateInv c) :
    StateInv (mesen_power_cycle c) := by
  unfold mesen_power_cycle
  cases hr : c.rom with
  | none => exact ih
  | some cart =>
    intro _
    simp [hr]

lemma stateInv_save_state (slot : Nat) {c : CoreState} (ih : StateInv c) :
    StateInv (mesen_save_state slot c).2 := by
  unfold mesen_save_state
  cases hr : c.rom with
  | none => exact ih
  | some cart =>
    simp only []
    split_ifs with h1
    · intro _
      simp [hr]
    · exact ih

lemma stateInv_load_state (slot : Nat) {c : CoreState} (ih : StateInv c) :
    StateInv (mesen_load_state slot c).2 := by
  unfold mesen_load_state
  cases hr : c.rom with
  | none => exact ih
  | some cart =>
    simp only []
    split_ifs with h1
    · cases hq : c.slots slot with
      | none => exact ih
      | some snap =>
        simp only []
        split_ifs with h2
        · intro _
          simp
        · exact ih
    · exact ih

lemma stateInv_load_from_buffer (data : List Nat) {c : CoreState}
    (ih : StateInv c) : StateInv (mesen_load_state_from_buffer data c).2 := by
  unfold mesen_load_state_from_buffer
  cases hr : c.rom with
  | none => exact ih
  | some cart =>
    cases hd : decodeSnapshot data with
    | none => exact ih
    | some tm =>
      simp only []
      split_ifs with h2
      · intro _
        simp
      · exact ih

lemma stateInv_quick_save {c : CoreState} (ih : StateInv c) :
    StateInv (mesen_quick_save c) := by
  unfold mesen_quick_save
  cases hr : c.rom with
  | none => exact ih
  | some cart =>
    intro _
    simp [hr]

lemma stateInv_quick_load {c : CoreState} (ih : StateInv c) :
    StateInv (mesen_quick_load c) := by
  unfold mesen_quick_load
  cases hr : c.rom with
  | none => exact ih
  | some cart =>
    cases hq : c.quickSlot with
    | none => exact ih
    | some snap =>
      simp only []
      split_ifs with h2
      · intro _
        simp
      · exact ih

lemma stateInv_set_input (controller buttons : Nat) {c : CoreState}
    (ih : StateInv c) : StateInv (mesen_set_input controller buttons c) := by
  unfold mesen_set_input
  split_ifs <;> exact stateInv_of_preserved rfl rfl ih

lemma stateInv_set_button (controller button : Nat) (pressed : Bool)
    {c : CoreState} (ih : StateInv c) :
    StateInv (mesen_set_button controller button pressed c) := by
  unfold mesen_set_button
  split_ifs <;> exact stateInv_of_preserved rfl rfl ih

/-- Every state reachable through the control surface satisfies the
invariant. -/
lemma reachable_stateInv {c : CoreState} (h : Reachable c) : StateInv c := by
  induction h with
  | init => exact stateInv_of_idle rfl
  | shutdown _ _ => exact stateInv_of_idle rfl
  | load_file fs path _ ih =>
    unfold mesen_load_rom_file
    cases hf : fs _ with
    | none => exact ih
    | some d => exact stateInv_load_data d ih
  | load_data d _ ih => exact stateInv_load_data d ih
  | unload _ _ => exact stateInv_of_idle rfl
  | start _ ih => exact stateInv_start ih
  | pause _ ih => exact stateInv_pause ih
  | resume _ ih => exact stateInv_resume ih
  | stop _ _ => exact stateInv_of_idle rfl
  | reset _ ih => exact stateInv_reset ih
  | power_cycle _ ih => exact stateInv_power_cycle ih
  | run_frame _ ih =>
    exact stateInv_of_preserved (run_frame_state _) (run_frame_rom _) ih
  | set_input controller buttons _ ih =>
    exact stateInv_set_input controller buttons ih
  | set_button controller button pressed _ ih =>
    exact stateInv_set_button controller button pressed ih
  | get_audio_samples maxSamples _ ih =>
    exact stateInv_of_preserved rfl rfl ih
  | save_state slot _ ih => exact stateInv_save_state slot ih
  | load_state slot _ ih => exact stateInv_load_state slot ih
  | load_from_buffer data _ ih => exact stateInv_load_from_buffer data ih
  | quick_save _ ih => exact stateInv_quick_save ih
  | quick_load _ ih => exact stateInv_quick_load ih
  | set_overscan top bottom left right _ ih =>
    exact stateInv_of_preserved rfl rfl ih
  | set_audio_channels s1 s2 tr no dm _ ih =>
    exact stateInv_of_preserved rfl rfl ih

/-- C7: start precondition — `mesen_start` moves the core to `Running`
exactly from the ready situation (`Idle` with a ROM loaded); in any other
state, or with no ROM, it is a benign no-op; consequently every reachable
`Running` state has `mesen_is_rom_loaded` true. -/
theorem start_requires_loaded_rom (c : CoreState) (cart : Cartridge) :
    (Reachable c → c.state = MesenState.Running →
      mesen_is_rom_loaded c = true) ∧
    (c.state = MesenState.Idle → c.rom = some cart →
      (mesen_start c).state = MesenState.Running) ∧
    (c.state ≠ MesenState.Idle → mesen_start c = c) ∧
    (c.rom = none → mesen_start c = c) := by
  refine ⟨fun hre hs => reachable_stateInv hre (Or.inl hs), ?_, ?_, ?_⟩
  · intro hi hr
    rw [start_of_ready hr hi]
  · intro hi
    unfold mesen_start
    cases hr : c.rom with
    | none => rfl
    | some cart2 => simp [hi]
  · intro hr
    unfold mesen_start
    rw [hr]

/-- Closed instances of C7: the concrete running core is reachable from
`mesen_init` (load, then start) and has its ROM loaded; starting the
freshly loaded core runs it; starting while already `Running`, or with no
ROM, is a no-op. -/
theorem start_requires_loaded_rom_witness :
    mesen_is_rom_loaded coreRunning = true ∧
    (mesen_start coreLoaded).state = MesenState.Running ∧
    mesen_start coreRunning = coreRunning ∧
    mesen_start initCore = initCore :=
  ⟨(start_requires_loaded_rom coreRunning testCart).1
     (Reachable.start (Reachable.load_data testRomImage Reachable.init)) rfl,
   (start_requires_loaded_rom coreLoaded testCart).2.1 rfl rfl,
   (start_requires_loaded_rom coreRunning testCart).2.2.1 (by decide),
   (start_requires_loaded_rom initCore testCart).2.2.2 rfl⟩

lemma set_audio_channels_machine (s1 s2 tr no dm : Bool) (c : CoreState) :
    (mesen_set_audio_channels s1 s2 tr no dm c).machine = c.machine := rfl

lemma set_audio_channels_restore (c : CoreState) :
    mesen_set_audio_channels c.audioCfg.square1 c.audioCfg.square2
      c.audioCfg.triangle c.audioCfg.noise c.audioCfg.dmc c = c := rfl

/-- C9: Audio channel mute purity — `mesen_set_audio_channels` never
touches the MachineState (so no channel period/duty/envelope/length
counter), the machine advances identically whatever the enable flags are
set to mid-stream, and after restoring the original flags the audio (and
video) of every subsequent frame is exactly what it would have been had
the channels never been muted. -/
theorem audio_mute_purity (c : CoreState) (cart : Cartridge)
    (s1 s2 tr no dm : Bool) (l1 l2 : List (Nat × Nat))
    (hr : c.rom = some cart) (hs : c.state = MesenState.Running) :
    (mesen_set_audio_channels s1 s2 tr no dm c).machine = c.machine ∧
    (runEnd l1 (mesen_set_audio_channels s1 s2 tr no dm c)).machine =
      (runEnd l1 c).machine ∧
    audioTrace l2
        (mesen_set_audio_channels c.audioCfg.square1 c.audioCfg.square2
          c.audioCfg.triangle c.audioCfg.noise c.audioCfg.dmc
          (runEnd l1 (mesen_set_audio_channels s1 s2 tr no dm c))) =
      audioTrace l2 (runEnd l1 c) ∧
    videoTrace l2
        (mesen_set_audio_channels c.audioCfg.square1 c.audioCfg.square2
          c.audioCfg.triangle c.audioCfg.noise c.audioCfg.dmc
          (runEnd l1 (mesen_set_audio_channels s1 s2 tr no dm c))) =
      videoTrace l2 (runEnd l1 c) := by
  have hmach : (runEnd l1 (mesen_set_audio_channels s1 s2 tr no dm c)).machine =
      (runEnd l1 c).machine :=
    runEnd_machine_congr l1 _ c rfl rfl rfl
  have hstA : (mesen_set_audio_channels c.audioCfg.square1 c.audioCfg.square2
      c.audioCfg.triangle c.audioCfg.noise c.audioCfg.dmc
      (runEnd l1 (mesen_set_audio_channels s1 s2 tr no dm c))).state =
      MesenState.Running := by
    show (runEnd l1 (mesen_set_audio_channels s1 s2 tr no dm c)).state =
      MesenState.Running
    rw [runEnd_state]
    exact hs
  have hstB : (runEnd l1 c).state = MesenState.Running := by
    rw [runEnd_state]; exact hs
  have hroA : (mesen_set_audio_channels c.audioCfg.square1 c.audioCfg.square2
      c.audioCfg.triangle c.audioCfg.noise c.audioCfg.dmc
      (runEnd l1 (mesen_set_audio_channels s1 s2 tr no dm c))).rom =
      some cart := by
    show (runEnd l1 (mesen_set_audio_channels s1 s2 tr no dm c)).rom =
      some cart
    rw [runEnd_rom]
    exact hr
  have hroB : (runEnd l1 c).rom = some cart := by
    rw [runEnd_rom]; exact hr
  obtain ⟨hv, ha, -⟩ := runSeq_congr cart l2
    (mesen_set_audio_channels c.audioCfg.square1 c.audioCfg.square2
      c.audioCfg.triangle c.audioCfg.noise c.audioCfg.dmc
      (runEnd l1 (mesen_set_audio_channels s1 s2 tr no dm c)))
    (runEnd l1 c) hstA hstB hroA hroB hmach
  refine ⟨rfl, hmach, ha ?_, hv⟩
  show c.audioCfg = (runEnd l1 c).audioCfg
  rw [runEnd_cfg]

/-- Closed instance of C9 on the concrete running core: mute both square
channels for two frames, restore, and observe identical machine and
identical subsequent audio/video. -/
theorem audio_mute_purity_witness :
    (mesen_set_audio_channels false false true true true
      coreRunning).machine = coreRunning.machine ∧
    (runEnd [(0, 0), (1, 1)] (mesen_set_audio_channels false false true true
      true coreRunning)).machine =
      (runEnd [(0, 0), (1, 1)] coreRunning).machine ∧
    audioTrace [(2, 2)]
        (mesen_set_audio_channels coreRunning.audioCfg.square1
          coreRunning.audioCfg.square2 coreRunning.audioCfg.triangle
          coreRunning.audioCfg.noise coreRunning.audioCfg.dmc
          (runEnd [(0, 0), (1, 1)]
            (mesen_set_audio_channels false false true true true
              coreRunning))) =
      audioTrace [(2, 2)] (runEnd [(0, 0), (1, 1)] coreRunning) ∧
    videoTrace [(2, 2)]
        (mesen_set_audio_channels coreRunning.audioCfg.square1
          coreRunning.audioCfg.square2 coreRunning.audioCfg.triangle
          coreRunning.audioCfg.noise coreRunning.audioCfg.dmc
          (runEnd [(0, 0), (1, 1)]
            (mesen_set_audio_channels false false true true true
              coreRunning))) =
      videoTrace [(2, 2)] (runEnd [(0, 0), (1, 1)] coreRunning) :=
  audio_mute_purity coreRunning testCart false false true true true
    [(0, 0), (1, 1)] [(2, 2)] rfl rfl

/-- C10: setButton is a single-bit update — for either controller and any
single-bit `NESButton` flag `b`, pressing sets the stored 8-bit mask to
`mask ||| b`, releasing sets it to `mask &&& ~b` (`~b` being `255 ^^^ b`
on 8-bit masks), every bit of that mask other than `b`'s, the other
controller's mask, and the rest of the core are untouched, while
`mesen_set_input` replaces the whole 8-bit mask. -/
theorem set_button_single_bit (c : CoreState) (b m : Nat)
    (hb : b ∈ nesButtonMasks) (h0 : c.pad0 < 256) (h1 : c.pad1 < 256)
    (hm : m < 256) :
    ((mesen_set_button 0 b true c).pad0 = c.pad0 ||| b) ∧
    ((mesen_set_button 0 b false c).pad0 = c.pad0 &&& (255 ^^^ b)) ∧
    ((mesen_set_button 1 b true c).pad1 = c.pad1 ||| b) ∧
    ((mesen_set_button 1 b false c).pad1 = c.pad1 &&& (255 ^^^ b)) ∧
    (∀ p : Bool, (mesen_set_button 0 b p c).pad1 = c.pad1) ∧
    (∀ p : Bool, (mesen_set_button 1 b p c).pad0 = c.pad0) ∧
    (∀ (ctrl : Nat) (p : Bool),
      (mesen_set_button ctrl b p c).machine = c.machine ∧
      (mesen_set_button ctrl b p c).state = c.state ∧
      (mesen_set_button ctrl b p c).rom = c.rom) ∧
    (∀ j : Nat, b.testBit j = false → ∀ p : Bool,
      ((mesen_set_button 0 b p c).pad0).testBit j = (c.pad0).testBit j) ∧
    ((mesen_set_input 0 m c).pad0 = m ∧ (mesen_set_input 1 m c).pad1 = m ∧
      (mesen_set_input 0 m c).pad1 = c.pad1 ∧
      (mesen_set_input 0 m c).machine = c.machine) := by
  have hb256 : b < 256 := by
    have hall : ∀ x ∈ nesButtonMasks, x < 256 := by decide
    exact hall b hb
  have e1 : (mesen_set_button 0 b true c).pad0 = c.pad0 ||| b := by
    show (c.pad0 ||| b) % 256 = c.pad0 ||| b
    exact Nat.mod_eq_of_lt
      (show c.pad0 ||| b < 2 ^ 8 from Nat.bitwise_lt_two_pow h0 hb256)
  have e2 : (mesen_set_button 0 b false c).pad0 = c.pad0 &&& (255 ^^^ b) := by
    show (c.pad0 &&& (255 ^^^ b % 256)) % 256 = c.pad0 &&& (255 ^^^ b)
    rw [Nat.mod_eq_of_lt hb256]
    exact Nat.mod_eq_of_lt (Nat.lt_of_le_of_lt Nat.and_le_left h0)
  have e3 : (mesen_set_button 1 b true c).pad1 = c.pad1 ||| b := by
    show (c.pad1 ||| b) % 256 = c.pad1 ||| b
    exact Nat.mod_eq_of_lt
      (show c.pad1 ||| b < 2 ^ 8 from Nat.bitwise_lt_two_pow h1 hb256)
  have e4 : (mesen_set_button 1 b false c).pad1 = c.pad1 &&& (255 ^^^ b) := by
    show (c.pad1 &&& (255 ^^^ b % 256)) % 256 = c.pad1 &&& (255 ^^^ b)
    rw [Nat.mod_eq_of_lt hb256]
    exact Nat.mod_eq_of_lt (Nat.lt_of_le_of_lt Nat.and_le_left h1)
  refine ⟨e1, e2, e3, e4, ?_, ?_, ?_, ?_, ?_, ?_, ?_, ?_⟩
  · intro p; cases p <;> rfl
  · intro p; cases p <;> rfl
  · intro ctrl p
    unfold mesen_set_button
    split_ifs <;> exact ⟨rfl, rfl, rfl⟩
  · intro j hj p
    cases p with
    | true =>
      rw [e1, Nat.testBit_lor, hj, Bool.or_false]
    | false =>
      rw [e2, Nat.testBit_land, Nat.testBit_xor, hj, Bool.xor_false]
      by_cases hj8 : j < 8
      · have h255 : Nat.testBit 255 j = true := by
          interval_cases j <;> decide
        rw [h255, Bool.and_true]
      · have h255 : Nat.testBit 255 j = false := by
          refine Nat.testBit_lt_two_pow ?_
          calc (255 : Nat) < 2 ^ 8 := by decide
          _ ≤ 2 ^ j := Nat.pow_le_pow_right (by decide) (by omega)
        have hc : Nat.testBit c.pad0 j = false := by
          refine Nat.testBit_lt_two_pow ?_
          calc c.pad0 < 2 ^ 8 := h0
          _ ≤ 2 ^ j := Nat.pow_le_pow_right (by decide) (by omega)
        rw [h255, Bool.and_false, hc]
  · show m % 256 = m
    exact Nat.mod_eq_of_lt hm
  · show m % 256 = m
    exact Nat.mod_eq_of_lt hm
  · rfl
  · rfl

/-- Closed instance of C10 at the concrete core, the Up flag and mask
37. -/
theorem set_button_single_bit_witness :
    ((mesen_set_button 0 NESButton_Up true coreRunning).pad0 =
      coreRunning.pad0 ||| NESButton_Up) ∧
    ((mesen_set_button 0 NESButton_Up false coreRunning).pad0 =
      coreRunning.pad0 &&& (255 ^^^ NESButton_Up)) ∧
    (mesen_set_input 0 37 coreRunning).pad0 = 37 :=
  have h := set_button_single_bit coreRunning NESButton_Up 37
    (by decide) (by decide) (by decide) (by decide)
  ⟨h.1, h.2.1, h.2.2.2.2.2.2.2.2.1⟩

end NesCaster
